import Mathlib

/-
Verification of the DSF (DSD Stream File) chunk codec from package
github.com/snmoore/go/audio/dsf against its natural-language specification.

The Go source is shallowly embedded: a byte stream is a `List Nat` (each
element a byte value), chunk readers consume a stream and return either a
`DsfErr` (mirroring the `fmt.Errorf` failure sites of the source, with the
dynamic values the message interpolates carried as constructor payloads) or
the updated `Audio` value together with the unread remainder of the stream.
Machine integers are `Nat` with explicit `% 2^32` / `% 2^64` where the Go
code performs conversions or where uint64 arithmetic can wrap.  Go runtime
panics (make with cap < len, integer division by zero, slicing beyond
capacity) are modelled as the distinguished error `DsfErr.runtimePanic`.
-/

/-- A little-endian unsigned integer read from a list of byte values, as
binary.LittleEndian.Uint32 / Uint64 do on a 4- or 8-byte slice. -/
def leUint (bs : List Nat) : Nat :=
  bs.foldr (fun b acc => b + 256 * acc) 0

/-- Little-endian serialization of `n` into `w` bytes, as
binary.LittleEndian.PutUint32 / PutUint64 do (the value is truncated
modulo 2^(8*w)). -/
def leBytes : Nat → Nat → List Nat
  | 0, _ => []
  | w + 1, n => n % 256 :: leBytes w (n / 256)

/-- Byte values of the DSD chunk header "DSD " (src/audio/dsf/dsd.go,
dsdChunkHeader). -/
def dsdTag : List Nat := [68, 83, 68, 32]

/-- Byte values of the fmt chunk header "fmt " (src/audio/dsf/fmt.go,
fmtChunkHeader). -/
def fmtTag : List Nat := [102, 109, 116, 32]

/-- Byte values of the data chunk header "data" (src/audio/dsf/data.go,
dataChunkHeader). -/
def dataTag : List Nat := [100, 97, 116, 97]

/-- audio.Channel (src/audio/audio.go). -/
inductive Channel
  | frontLeft
  | frontRight
  | center
  | lowFrequency
  | backLeft
  | backRight
deriving DecidableEq

/-- audio.Encoding (src/audio/audio.go): DSD (uncompressed) or DST
(compressed). -/
inductive Encoding
  | dsd
  | dst
deriving DecidableEq

/-- audio.Audio (src/audio/audio.go).  Field defaults are the Go zero
value, as produced by new(audio.Audio) in the decoder. -/
structure Audio where
  encoding : Encoding := .dsd
  numChannels : Nat := 0
  channelOrder : List Channel := []
  samplingFrequency : Nat := 0
  bitsPerSample : Nat := 0
  blockSize : Nat := 0
  encodedSamples : List Nat := []
  metadata : List Nat := []
deriving DecidableEq

/-- The Audio value the decoder starts from (new(audio.Audio)). -/
def emptyAudio : Audio := {}

/-- Which chunk a validation error is reported for (the "dsd:", "fmt:",
"data:", "metadata:" context of the Go error messages). -/
inductive ChunkCtx
  | dsdC
  | fmtC
  | dataC
  | metaC
deriving DecidableEq

/-- The failure cases of the codec.  Each constructor corresponds to one
fmt.Errorf site in the Go source and carries the dynamic values that the
corresponding error message interpolates. -/
inductive DsfErr
  /-- binary.Read failed: short read or stream error. -/
  | ioShortRead
  /-- "expected X chunk but found Y chunk" (out-of-order known chunk). -/
  | wrongChunk (expected : ChunkCtx) (found : ChunkCtx)
  /-- "bad chunk header: %q ... % x" with the raw chunk bytes read. -/
  | badHeader (which : ChunkCtx) (chunk : List Nat)
  /-- "bad chunk size: %v". -/
  | badSize (which : ChunkCtx) (size : Nat)
  /-- "dsd: bad total file size: %v". -/
  | badTotalFileSize (n : Nat)
  /-- "dsd: bad pointer to metadata chunk: %v". -/
  | badMetadataPtr (n : Nat)
  /-- "fmt: bad format version: %v". -/
  | badVersion (n : Nat)
  /-- "fmt: bad format id: %v". -/
  | badFormatId (n : Nat)
  /-- "fmt: bad channel type: %v". -/
  | badChannelType (n : Nat)
  /-- "fmt: bad channel num: %v". -/
  | badChannelNum (n : Nat)
  /-- "fmt: mismatch between channel type %v and channel num %v". -/
  | channelMismatch (channelType channelNum : Nat)
  /-- "fmt: bad sampling frequency: %v". -/
  | badSamplingFrequency (n : Nat)
  /-- "fmt: bad bits per sample: %v". -/
  | badBitsPerSample (n : Nat)
  /-- "fmt: bad block size: %v". -/
  | badBlockSize (n : Nat)
  /-- "fmt: bad reserved bytes: %#x". -/
  | badReserved (n : Nat)
  /-- "unsupported audio encoding: %v" (Encode wrapper). -/
  | unsupportedEncoding
  /-- "fmt: unsupported channel ordering: %v" (writeFmtChunk). -/
  | unsupportedChannelOrdering (order : List Channel)
  /-- "fmt: mismatch between num channels and channel order" (writeFmtChunk). -/
  | numChannelsOrderMismatch (n : Nat) (order : List Channel)
  /-- "fmt: unsupported sampling frequency: %v" (writeFmtChunk). -/
  | unsupportedSamplingFrequency (n : Nat)
  /-- "fmt: unsupported bits per sample: %v" (writeFmtChunk). -/
  | unsupportedBitsPerSample (n : Nat)
  /-- A Go runtime panic: make([]T, len, cap) with cap < len, integer
  division by zero, or slicing beyond capacity. -/
  | runtimePanic
deriving DecidableEq

/-- fmtChannelOrder (src/audio/dsf/fmt.go): channel order for each defined
value of the ChannelType field; `none` for an undefined value.  The keys of
the fmtChannelType map in the source are exactly 1..7, the same keys as
this map, so a single lookup models both table lookups of readFmtChunk. -/
def fmtChannelOrder (n : Nat) : Option (List Channel) :=
  match n with
  | 1 => some [.center]
  | 2 => some [.frontLeft, .frontRight]
  | 3 => some [.frontLeft, .frontRight, .center]
  | 4 => some [.frontLeft, .frontRight, .backLeft, .backRight]
  | 5 => some [.frontLeft, .frontRight, .center, .lowFrequency]
  | 6 => some [.frontLeft, .frontRight, .center, .backLeft, .backRight]
  | 7 => some [.frontLeft, .frontRight, .center, .lowFrequency, .backLeft, .backRight]
  | _ => none

/-- Keys of the fmtChannelNum map (src/audio/dsf/fmt.go): permitted values
of the ChannelNum field. -/
def fmtChannelNumKeys : List Nat := [1, 2, 3, 4, 5, 6]

/-- Keys of the fmtSamplingFrequency map (src/audio/dsf/fmt.go). -/
def fmtSamplingFrequencyKeys : List Nat := [2822400, 5644800, 11289600, 22579200]

/-- Keys of the fmtBitsPerSample map (src/audio/dsf/fmt.go). -/
def fmtBitsPerSampleKeys : List Nat := [1, 8]

/-- Reading exactly `n` bytes from the stream, as binary.Read does for a
fixed-size destination: short input is an error (`none`). -/
def readN (n : Nat) (s : List Nat) : Option (List Nat × List Nat) :=
  if n ≤ s.length then some (s.take n, s.drop n) else none

/-- readDSDChunk (src/audio/dsf/dsd.go, lines 40-91): read 28 bytes, check
the header with the three-way specific-vs-generic policy, check size = 28,
check total file size ≥ 28+52+12, check the metadata pointer and
pre-allocate the metadata buffer of totalFileSize − metadataPointer zero
bytes when the pointer is non-zero and in range. -/
def readDSDChunk (s : List Nat) (a : Audio) : Except DsfErr (Audio × List Nat) :=
  match readN 28 s with
  | none => .error .ioShortRead
  | some (c, rest) =>
    if c.take 4 = dsdTag then
      let size := leUint ((c.drop 4).take 8)
      if size ≠ 28 then .error (.badSize .dsdC size)
      else
        let totalFileSize := leUint ((c.drop 12).take 8)
        if totalFileSize < 28 + 52 + 12 then .error (.badTotalFileSize totalFileSize)
        else
          let metadataPointer := leUint ((c.drop 20).take 8)
          if metadataPointer ≠ 0 then
            if totalFileSize ≤ metadataPointer ∨ metadataPointer ≤ 28 + 52 + 12 then
              .error (.badMetadataPtr metadataPointer)
            else
              .ok ({ a with metadata := List.replicate (totalFileSize - metadataPointer) 0 }, rest)
          else
            .ok (a, rest)
    else if c.take 4 = fmtTag then .error (.wrongChunk .dsdC .fmtC)
    else if c.take 4 = dataTag then .error (.wrongChunk .dsdC .dataC)
    else .error (.badHeader .dsdC c)

/-- readFmtChunk (src/audio/dsf/fmt.go, lines 144-270): read 52 bytes,
validate every field, then store the decoded fields and pre-allocate the
sample buffer of
((sampleCount / (8 / bitsPerSample)) + blockSize − (that % blockSize))
× channelNum zero bytes (uint64 arithmetic, hence the % 2^64). -/
def readFmtChunk (s : List Nat) (a : Audio) : Except DsfErr (Audio × List Nat) :=
  match readN 52 s with
  | none => .error .ioShortRead
  | some (c, rest) =>
    if c.take 4 = fmtTag then
      let size := leUint ((c.drop 4).take 8)
      if size ≠ 52 then .error (.badSize .fmtC size)
      else
        let formatVersion := leUint ((c.drop 12).take 4)
        if formatVersion ≠ 1 then .error (.badVersion formatVersion)
        else
          let formatId := leUint ((c.drop 16).take 4)
          if formatId ≠ 0 then .error (.badFormatId formatId)
          else
            let channelType := leUint ((c.drop 20).take 4)
            match fmtChannelOrder channelType with
            | none => .error (.badChannelType channelType)
            | some order =>
              let channelNum := leUint ((c.drop 24).take 4)
              if channelNum ∉ fmtChannelNumKeys then .error (.badChannelNum channelNum)
              else if channelNum ≠ order.length then
                .error (.channelMismatch channelType channelNum)
              else
                let samplingFrequency := leUint ((c.drop 28).take 4)
                if samplingFrequency ∉ fmtSamplingFrequencyKeys then
                  .error (.badSamplingFrequency samplingFrequency)
                else
                  let bitsPerSample := leUint ((c.drop 32).take 4)
                  if bitsPerSample ∉ fmtBitsPerSampleKeys then
                    .error (.badBitsPerSample bitsPerSample)
                  else
                    let sampleCount := leUint ((c.drop 36).take 8)
                    let blockSize := leUint ((c.drop 44).take 4)
                    if blockSize ≠ 4096 then .error (.badBlockSize blockSize)
                    else
                      let reserved := leUint ((c.drop 48).take 4)
                      if reserved ≠ 0 then .error (.badReserved reserved)
                      else
                        let l1 := sampleCount / (8 / bitsPerSample)
                        let l2 := (l1 + (blockSize - l1 % blockSize)) % 2 ^ 64
                        let l3 := (l2 * channelNum) % 2 ^ 64
                        .ok ({ a with
                                encoding := .dsd,
                                numChannels := channelNum,
                                channelOrder := order,
                                samplingFrequency := samplingFrequency,
                                bitsPerSample := bitsPerSample,
                                blockSize := blockSize,
                                encodedSamples := List.replicate l3 0 }, rest)
    else if c.take 4 = dsdTag then .error (.wrongChunk .fmtC .dsdC)
    else if c.take 4 = dataTag then .error (.wrongChunk .fmtC .dataC)
    else .error (.badHeader .fmtC c)

/-- readDataChunk (src/audio/dsf/data.go, lines 37-82): read the 12-byte
header, check the tag, check size = 12 + length of the pre-allocated
sample buffer, then read exactly that many sample bytes. -/
def readDataChunk (s : List Nat) (a : Audio) : Except DsfErr (Audio × List Nat) :=
  match readN 12 s with
  | none => .error .ioShortRead
  | some (c, rest) =>
    if c.take 4 = dataTag then
      let size := leUint ((c.drop 4).take 8)
      if size ≠ 12 + a.encodedSamples.length then .error (.badSize .dataC size)
      else
        match readN a.encodedSamples.length rest with
        | none => .error .ioShortRead
        | some (samples, rest2) => .ok ({ a with encodedSamples := samples }, rest2)
    else if c.take 4 = dsdTag then .error (.wrongChunk .dataC .dsdC)
    else if c.take 4 = fmtTag then .error (.wrongChunk .dataC .fmtC)
    else .error (.badHeader .dataC c)

/-- readMetadataChunk (src/audio/dsf/fmt.go, lines 583-615): read exactly
len(Metadata) bytes into the pre-allocated metadata buffer, then reject the
result if its first four bytes equal one of the three mandatory chunk tags.
(The copy of readMetadataChunk in src/audio/dsf/metadata.go is an earlier
revision without the tag check; the revision with the check is the one the
table-driven tests of src/audio/dsf/metadata_test.go require.)  Go slices
the buffer as Metadata[:4], which panics when the buffer holds fewer than
4 bytes; that panic is modelled as runtimePanic. -/
def readMetadataChunk (s : List Nat) (a : Audio) : Except DsfErr (Audio × List Nat) :=
  match readN a.metadata.length s with
  | none => .error .ioShortRead
  | some (m, rest) =>
    if m.length < 4 then .error .runtimePanic
    else if m.take 4 = dsdTag then .error (.wrongChunk .metaC .dsdC)
    else if m.take 4 = fmtTag then .error (.wrongChunk .metaC .fmtC)
    else if m.take 4 = dataTag then .error (.wrongChunk .metaC .dataC)
    else .ok ({ a with metadata := m }, rest)

/-- The fourth step of decode (src/unnamed/part_005, decode): the metadata
chunk is read only when the metadata buffer pre-allocated by readDSDChunk
is non-empty. -/
def readMetadataStage (s : List Nat) (a : Audio) : Except DsfErr Audio :=
  if 0 < a.metadata.length then
    match readMetadataChunk s a with
    | .error e => .error e
    | .ok (a4, _) => .ok a4
  else .ok a

/-- decode (src/unnamed/part_005, lines 32-60): DSD chunk, fmt chunk, data
chunk, then optionally the metadata chunk, starting from a fresh Audio; the
first failure aborts the whole call. -/
def decode (s : List Nat) : Except DsfErr Audio :=
  match readDSDChunk s emptyAudio with
  | .error e => .error e
  | .ok (a1, s1) =>
    match readFmtChunk s1 a1 with
    | .error e => .error e
    | .ok (a2, s2) =>
      match readDataChunk s2 a2 with
      | .error e => .error e
      | .ok (a3, s3) => readMetadataStage s3 a3

/-- Decode (src/unnamed/part_005): the exported wrapper simply runs decode
on a fresh decoder. -/
def Decode (s : List Nat) : Except DsfErr Audio := decode s

/-- Go's make([]byte, len, cap): a runtime panic (`none`) when cap < len,
otherwise len zero bytes. -/
def goMakeSlice (l c : Nat) : Option (List Nat) :=
  if c < l then none else some (List.replicate l 0)

/-- The byte layout of a DSD chunk: tag, size (u64), total file size (u64),
metadata pointer (u64); all little-endian (src/audio/dsf/dsd.go, DsdChunk). -/
def mkDsdChunk (size totalFileSize metadataPointer : Nat) : List Nat :=
  dsdTag ++ (leBytes 8 size ++ (leBytes 8 totalFileSize ++ leBytes 8 metadataPointer))

/-- The byte layout of a fmt chunk: tag, size (u64), version (u32),
format id (u32), channel type (u32), channel num (u32), sampling frequency
(u32), bits per sample (u32), sample count (u64), block size (u32),
reserved (u32); all little-endian (src/audio/dsf/fmt.go, FmtChunk). -/
def mkFmtChunk (size ver fid ct cn freq bits sc bsz rsv : Nat) : List Nat :=
  fmtTag ++ (leBytes 8 size ++ (leBytes 4 ver ++ (leBytes 4 fid ++ (leBytes 4 ct ++
    (leBytes 4 cn ++ (leBytes 4 freq ++ (leBytes 4 bits ++ (leBytes 8 sc ++
    (leBytes 4 bsz ++ leBytes 4 rsv)))))))))

/-- The byte layout of a data chunk header: tag and size (u64),
little-endian (src/audio/dsf/data.go, DataChunk). -/
def mkDataChunk (size : Nat) : List Nat :=
  dataTag ++ leBytes 8 size

/-- writeDSDChunk (src/audio/dsf/dsd.go, lines 94-129): the bytes it emits.
Total file size is 28+52+12 plus the sample and metadata lengths (uint64);
the metadata pointer is totalFileSize − len(metadata) when metadata is
present, 0 otherwise. -/
def writeDSDChunkBytes (a : Audio) : List Nat :=
  let totalFileSize := (28 + 52 + 12 + a.encodedSamples.length + a.metadata.length) % 2 ^ 64
  let metadataPointer :=
    if 0 < a.metadata.length then
      (totalFileSize + 2 ^ 64 - a.metadata.length % 2 ^ 64) % 2 ^ 64
    else 0
  mkDsdChunk 28 totalFileSize metadataPointer

/-- The channel type the writeFmtChunk loop over fmtChannelOrder resolves
for a channel order: the unique key whose order matches, or 0 when none
matches (channelType keeps its zero value). -/
def lookupChannelType (order : List Channel) : Nat :=
  (([1, 2, 3, 4, 5, 6, 7].filter fun k => fmtChannelOrder k = some order).headD 0)

/-- writeFmtChunk (src/audio/dsf/fmt.go, lines 273-365): reverse-resolve
the channel type (error when no order matches), check NumChannels against
the channel order when NumChannels > 1, check the sampling frequency and
bits per sample against their tables, and emit the chunk bytes.  The
source never assigns the SampleCount, BlockSize and Reserved fields of the
output struct, so those bytes stay zero. -/
def writeFmtChunkBytes (a : Audio) : Except DsfErr (List Nat) :=
  let channelType := lookupChannelType a.channelOrder
  if channelType = 0 then .error (.unsupportedChannelOrdering a.channelOrder)
  else
    let channelNum := a.numChannels % 2 ^ 32
    if 1 < channelNum ∧ channelNum ≠ a.channelOrder.length % 2 ^ 32 then
      .error (.numChannelsOrderMismatch channelNum a.channelOrder)
    else
      let samplingFrequency := a.samplingFrequency % 2 ^ 32
      if samplingFrequency ∉ fmtSamplingFrequencyKeys then
        .error (.unsupportedSamplingFrequency samplingFrequency)
      else
        let bitsPerSample := a.bitsPerSample % 2 ^ 32
        if bitsPerSample ∉ fmtBitsPerSampleKeys then
          .error (.unsupportedBitsPerSample bitsPerSample)
        else
          .ok (mkFmtChunk 52 1 0 channelType channelNum samplingFrequency bitsPerSample 0 0 0)

/-- The chunk-writing part of encode (src/audio/dsf/writer.go, lines
45-54): the DSD chunk is written first, then the fmt chunk; a validation
failure inside writeFmtChunk happens before any fmt byte is emitted, so
the DSD chunk bytes are already on the wire when it is reported.  The
result pairs the bytes written with the error, if any. -/
def encodeChunks (a : Audio) : List Nat × Option DsfErr :=
  let dsdB := writeDSDChunkBytes a
  match writeFmtChunkBytes a with
  | .error e => (dsdB, some e)
  | .ok fmtB => (dsdB ++ fmtB, none)

/-- encode (src/audio/dsf/writer.go, lines 32-55): the padding step
computes remainder = len(EncodedSamples) % BlockSize (a Go integer modulo,
which panics when BlockSize is 0) and, when the remainder is positive,
calls make([]byte, remainder, 0) — which always panics because the
capacity 0 is smaller than the length — before appending the padding and
writing the chunks. -/
def encode (a : Audio) : List Nat × Option DsfErr :=
  if a.blockSize = 0 then ([], some .runtimePanic)
  else
    let remainder := a.encodedSamples.length % a.blockSize
    if 0 < remainder then
      match goMakeSlice remainder 0 with
      | none => ([], some .runtimePanic)
      | some padding => encodeChunks { a with encodedSamples := a.encodedSamples ++ padding }
    else encodeChunks a

/-- Encode (src/audio/dsf/writer.go, lines 59-71): reject a non-DSD
encoding, then run encode. -/
def Encode (a : Audio) : List Nat × Option DsfErr :=
  if a.encoding ≠ .dsd then ([], some .unsupportedEncoding)
  else encode a

/-- The bytes-per-channel computation in the words of the specification
claim: ceil(sample-count / (8 / bits-per-sample)), rounded up to the next
multiple of block-size with a value already a multiple left unchanged. -/
def bytesPerChannelClaimed (sc bits bsz : Nat) : Nat :=
  let q := (sc + (8 / bits) - 1) / (8 / bits)
  if q % bsz = 0 then q else q + (bsz - q % bsz)

/-- The bytes-per-channel computation the source actually performs
(src/audio/dsf/fmt.go, lines 264-265, without the uint64 wrap):
floor(sample-count / (8 / bits-per-sample)) plus block-size minus that
value's remainder modulo block-size, which always adds between 1 and
block-size bytes. -/
def bytesPerChannelAmended (sc bits bsz : Nat) : Nat :=
  sc / (8 / bits) + (bsz - sc / (8 / bits) % bsz)

/-- An Audio whose sample buffer is not a multiple of the block size:
the failing input for the encoder padding step. -/
def c2audio : Audio :=
  { encoding := .dsd, blockSize := 4096, encodedSamples := [7] }

/-- A valid fmt chunk whose sample count (32768 at 1 bit per sample,
mono) makes bytes-per-channel land exactly on a block boundary. -/
def c3chunk : List Nat := mkFmtChunk 52 1 0 1 1 2822400 1 32768 4096 0

/-- The Audio readFmtChunk produces for c3chunk: the sample buffer gets
a full extra block, 8192 bytes instead of 4096. -/
def c3audioResult : Audio :=
  { encoding := .dsd, numChannels := 1, channelOrder := [.center],
    samplingFrequency := 2822400, bitsPerSample := 1, blockSize := 4096,
    encodedSamples := List.replicate 8192 0, metadata := [] }

/-- A well-formed stereo DSD Audio value accepted by writeFmtChunk. -/
def c4audio : Audio :=
  { encoding := .dsd, numChannels := 2, channelOrder := [.frontLeft, .frontRight],
    samplingFrequency := 2822400, bitsPerSample := 1, blockSize := 4096 }

/-- The fmt chunk writeFmtChunk emits for c4audio: sample count, block
size and reserved are all zero because the source never assigns them. -/
def c4chunk : List Nat := mkFmtChunk 52 1 0 2 2 2822400 1 0 0 0

/-- A well-formed stereo DSD Audio value on which Encode succeeds. -/
def c1audio : Audio :=
  { encoding := .dsd, numChannels := 2, channelOrder := [.frontLeft, .frontRight],
    samplingFrequency := 2822400, bitsPerSample := 1, blockSize := 4096 }

/-- The bytes Encode writes for c1audio: the DSD chunk then the fmt chunk,
nothing else. -/
def c1out : List Nat := writeDSDChunkBytes c1audio ++ mkFmtChunk 52 1 0 2 2 2822400 1 0 0 0

/-- A stream whose DSD chunk declares total-file-size 92 with no metadata,
yet whose fmt chunk (mono, sample count 1) makes the decoder read a
4096-byte data payload: 4188 bytes in all, contradicting the declared 92. -/
def c10stream : List Nat :=
  mkDsdChunk 28 92 0 ++ (mkFmtChunk 52 1 0 1 1 2822400 1 1 4096 0 ++
    (mkDataChunk 4108 ++ List.replicate 4096 0))

/-- The Audio c10stream decodes to. -/
def c10audio : Audio :=
  { encoding := .dsd, numChannels := 1, channelOrder := [.center],
    samplingFrequency := 2822400, bitsPerSample := 1, blockSize := 4096,
    encodedSamples := List.replicate 4096 0, metadata := [] }

theorem leUint_nil : leUint [] = 0 := rfl

theorem leUint_cons (b : Nat) (bs : List Nat) : leUint (b :: bs) = b + 256 * leUint bs := rfl

theorem leBytes_length (w n : Nat) : (leBytes w n).length = w := by
  induction w generalizing n with
  | zero => rfl
  | succ w ih => simp [leBytes, ih]

theorem leUint_leBytes (w n : Nat) : leUint (leBytes w n) = n % 256 ^ w := by
  induction w generalizing n with
  | zero => simp [leBytes, leUint_nil, Nat.mod_one]
  | succ w ih =>
    rw [leBytes, leUint_cons, ih, pow_succ, mul_comm (256 ^ w) 256, Nat.mod_mul]

theorem leUint_leBytes_of_lt {w n : Nat} (h : n < 256 ^ w) : leUint (leBytes w n) = n := by
  rw [leUint_leBytes, Nat.mod_eq_of_lt h]

theorem readN_exact {l : List Nat} {n : Nat} (h : l.length = n) (r : List Nat) :
    readN n (l ++ r) = some (l, r) := by
  have hle : n ≤ (l ++ r).length := by
    rw [List.length_append, h]; exact Nat.le_add_right n r.length
  unfold readN
  rw [if_pos hle, List.take_left' h, List.drop_left' h]

theorem mkDsdChunk_length (sz t mp : Nat) : (mkDsdChunk sz t mp).length = 28 := by
  simp [mkDsdChunk, dsdTag, leBytes_length]

theorem mkFmtChunk_length (size ver fid ct cn freq bits sc bsz rsv : Nat) :
    (mkFmtChunk size ver fid ct cn freq bits sc bsz rsv).length = 52 := by
  simp [mkFmtChunk, fmtTag, leBytes_length]

theorem mkDataChunk_length (sz : Nat) : (mkDataChunk sz).length = 12 := by
  simp [mkDataChunk, dataTag, leBytes_length]

theorem drop_app_exact {l r : List Nat} {n : Nat} (h : l.length = n) :
    (l ++ r).drop n = r := List.drop_left' h

theorem take_app_exact {l r : List Nat} {n : Nat} (h : l.length = n) :
    (l ++ r).take n = l := List.take_left' h

theorem readDSDChunk_mk (sz t mp : Nat) (r : List Nat) (a : Audio)
    (hsz : sz < 2 ^ 64) (ht : t < 2 ^ 64) (hmp : mp < 2 ^ 64) :
    readDSDChunk (mkDsdChunk sz t mp ++ r) a =
      if sz ≠ 28 then .error (.badSize .dsdC sz)
      else if t < 92 then .error (.badTotalFileSize t)
      else if mp ≠ 0 then
        if t ≤ mp ∨ mp ≤ 92 then .error (.badMetadataPtr mp)
        else .ok ({ a with metadata := List.replicate (t - mp) 0 }, r)
      else .ok (a, r) := by
  have h256 : (256 : Nat) ^ 8 = 2 ^ 64 := by norm_num
  have htag : (mkDsdChunk sz t mp).take 4 = dsdTag :=
    take_app_exact (by rfl)
  have hdrop4 : (mkDsdChunk sz t mp).drop 4 =
      leBytes 8 sz ++ (leBytes 8 t ++ leBytes 8 mp) :=
    drop_app_exact (by rfl)
  have hf1 : ((mkDsdChunk sz t mp).drop 4).take 8 = leBytes 8 sz := by
    rw [hdrop4]; exact take_app_exact (leBytes_length 8 sz)
  have hdrop12 : (mkDsdChunk sz t mp).drop 12 = leBytes 8 t ++ leBytes 8 mp := by
    have : (mkDsdChunk sz t mp).drop 12 = ((mkDsdChunk sz t mp).drop 4).drop 8 := by
      rw [List.drop_drop]
    rw [this, hdrop4, drop_app_exact (leBytes_length 8 sz)]
  have hf2 : ((mkDsdChunk sz t mp).drop 12).take 8 = leBytes 8 t := by
    rw [hdrop12]; exact take_app_exact (leBytes_length 8 t)
  have hdrop20 : (mkDsdChunk sz t mp).drop 20 = leBytes 8 mp := by
    have h20 : (mkDsdChunk sz t mp).drop 20 = ((mkDsdChunk sz t mp).drop 12).drop 8 := by
      rw [List.drop_drop]
    rw [h20, hdrop12, drop_app_exact (leBytes_length 8 t)]
  have hf3 : ((mkDsdChunk sz t mp).drop 20).take 8 = leBytes 8 mp := by
    rw [hdrop20, List.take_of_length_le (by rw [leBytes_length])]
  rw [readDSDChunk, readN_exact (mkDsdChunk_length sz t mp) r]
  simp only [htag, hf1, hf2, hf3, leUint_leBytes, h256,
    Nat.mod_eq_of_lt hsz, Nat.mod_eq_of_lt ht, Nat.mod_eq_of_lt hmp,
    if_pos rfl]
  norm_num

theorem readFmtChunk_mk (size ver fid ct cn freq bits sc bsz rsv : Nat) (r : List Nat)
    (a : Audio) (hsize : size < 2 ^ 64) (hver : ver < 2 ^ 32) (hfid : fid < 2 ^ 32)
    (hct : ct < 2 ^ 32) (hcn : cn < 2 ^ 32) (hfreq : freq < 2 ^ 32)
    (hbits : bits < 2 ^ 32) (hsc : sc < 2 ^ 64) (hbsz : bsz < 2 ^ 32)
    (hrsv : rsv < 2 ^ 32) :
    readFmtChunk (mkFmtChunk size ver fid ct cn freq bits sc bsz rsv ++ r) a =
      if size ≠ 52 then .error (.badSize .fmtC size)
      else if ver ≠ 1 then .error (.badVersion ver)
      else if fid ≠ 0 then .error (.badFormatId fid)
      else
        match fmtChannelOrder ct with
        | none => .error (.badChannelType ct)
        | some order =>
          if cn ∉ fmtChannelNumKeys then .error (.badChannelNum cn)
          else if cn ≠ order.length then .error (.channelMismatch ct cn)
          else if freq ∉ fmtSamplingFrequencyKeys then .error (.badSamplingFrequency freq)
          else if bits ∉ fmtBitsPerSampleKeys then .error (.badBitsPerSample bits)
          else if bsz ≠ 4096 then .error (.badBlockSize bsz)
          else if rsv ≠ 0 then .error (.badReserved rsv)
          else
            .ok ({ a with
                    encoding := .dsd,
                    numChannels := cn,
                    channelOrder := order,
                    samplingFrequency := freq,
                    bitsPerSample := bits,
                    blockSize := bsz,
                    encodedSamples :=
                      List.replicate
                        (((sc / (8 / bits) + (bsz - sc / (8 / bits) % bsz)) % 2 ^ 64 * cn)
                          % 2 ^ 64) 0 }, r) := by
  have h64 : (256 : Nat) ^ 8 = 2 ^ 64 := by norm_num
  have h32 : (256 : Nat) ^ 4 = 2 ^ 32 := by norm_num
  set c := mkFmtChunk size ver fid ct cn freq bits sc bsz rsv with hc
  have htag : c.take 4 = fmtTag := take_app_exact (by rfl)
  have hd4 : c.drop 4 = leBytes 8 size ++ (leBytes 4 ver ++ (leBytes 4 fid ++ (leBytes 4 ct ++
      (leBytes 4 cn ++ (leBytes 4 freq ++ (leBytes 4 bits ++ (leBytes 8 sc ++
      (leBytes 4 bsz ++ leBytes 4 rsv)))))))) := drop_app_exact (by rfl)
  have hf1 : (c.drop 4).take 8 = leBytes 8 size := by
    rw [hd4]; exact take_app_exact (leBytes_length 8 size)
  have hd12 : c.drop 12 = leBytes 4 ver ++ (leBytes 4 fid ++ (leBytes 4 ct ++
      (leBytes 4 cn ++ (leBytes 4 freq ++ (leBytes 4 bits ++ (leBytes 8 sc ++
      (leBytes 4 bsz ++ leBytes 4 rsv))))))) := by
    have h' : c.drop 12 = (c.drop 4).drop 8 := by rw [List.drop_drop]
    rw [h', hd4, drop_app_exact (leBytes_length 8 size)]
  have hf2 : (c.drop 12).take 4 = leBytes 4 ver := by
    rw [hd12]; exact take_app_exact (leBytes_length 4 ver)
  have hd16 : c.drop 16 = leBytes 4 fid ++ (leBytes 4 ct ++
      (leBytes 4 cn ++ (leBytes 4 freq ++ (leBytes 4 bits ++ (leBytes 8 sc ++
      (leBytes 4 bsz ++ leBytes 4 rsv)))))) := by
    have h' : c.drop 16 = (c.drop 12).drop 4 := by rw [List.drop_drop]
    rw [h', hd12, drop_app_exact (leBytes_length 4 ver)]
  have hf3 : (c.drop 16).take 4 = leBytes 4 fid := by
    rw [hd16]; exact take_app_exact (leBytes_length 4 fid)
  have hd20 : c.drop 20 = leBytes 4 ct ++
      (leBytes 4 cn ++ (leBytes 4 freq ++ (leBytes 4 bits ++ (leBytes 8 sc ++
      (leBytes 4 bsz ++ leBytes 4 rsv))))) := by
    have h' : c.drop 20 = (c.drop 16).drop 4 := by rw [List.drop_drop]
    rw [h', hd16, drop_app_exact (leBytes_length 4 fid)]
  have hf4 : (c.drop 20).take 4 = leBytes 4 ct := by
    rw [hd20]; exact take_app_exact (leBytes_length 4 ct)
  have hd24 : c.drop 24 = leBytes 4 cn ++ (leBytes 4 freq ++ (leBytes 4 bits ++
      (leBytes 8 sc ++ (leBytes 4 bsz ++ leBytes 4 rsv)))) := by
    have h' : c.drop 24 = (c.drop 20).drop 4 := by rw [List.drop_drop]
    rw [h', hd20, drop_app_exact (leBytes_length 4 ct)]
  have hf5 : (c.drop 24).take 4 = leBytes 4 cn := by
    rw [hd24]; exact take_app_exact (leBytes_length 4 cn)
  have hd28 : c.drop 28 = leBytes 4 freq ++ (leBytes 4 bits ++
      (leBytes 8 sc ++ (leBytes 4 bsz ++ leBytes 4 rsv))) := by
    have h' : c.drop 28 = (c.drop 24).drop 4 := by rw [List.drop_drop]
    rw [h', hd24, drop_app_exact (leBytes_length 4 cn)]
  have hf6 : (c.drop 28).take 4 = leBytes 4 freq := by
    rw [hd28]; exact take_app_exact (leBytes_length 4 freq)
  have hd32 : c.drop 32 = leBytes 4 bits ++
      (leBytes 8 sc ++ (leBytes 4 bsz ++ leBytes 4 rsv)) := by
    have h' : c.drop 32 = (c.drop 28).drop 4 := by rw [List.drop_drop]
    rw [h', hd28, drop_app_exact (leBytes_length 4 freq)]
  have hf7 : (c.drop 32).take 4 = leBytes 4 bits := by
    rw [hd32]; exact take_app_exact (leBytes_length 4 bits)
  have hd36 : c.drop 36 = leBytes 8 sc ++ (leBytes 4 bsz ++ leBytes 4 rsv) := by
    have h' : c.drop 36 = (c.drop 32).drop 4 := by rw [List.drop_drop]
    rw [h', hd32, drop_app_exact (leBytes_length 4 bits)]
  have hf8 : (c.drop 36).take 8 = leBytes 8 sc := by
    rw [hd36]; exact take_app_exact (leBytes_length 8 sc)
  have hd44 : c.drop 44 = leBytes 4 bsz ++ leBytes 4 rsv := by
    have h' : c.drop 44 = (c.drop 36).drop 8 := by rw [List.drop_drop]
    rw [h', hd36, drop_app_exact (leBytes_length 8 sc)]
  have hf9 : (c.drop 44).take 4 = leBytes 4 bsz := by
    rw [hd44]; exact take_app_exact (leBytes_length 4 bsz)
  have hd48 : c.drop 48 = leBytes 4 rsv := by
    have h' : c.drop 48 = (c.drop 44).drop 4 := by rw [List.drop_drop]
    rw [h', hd44, drop_app_exact (leBytes_length 4 bsz)]
  have hf10 : (c.drop 48).take 4 = leBytes 4 rsv := by
    rw [hd48, List.take_of_length_le (by rw [leBytes_length])]
  rw [readFmtChunk, readN_exact (mkFmtChunk_length size ver fid ct cn freq bits sc bsz rsv) r]
  simp only [htag, hf1, hf2, hf3, hf4, hf5, hf6, hf7, hf8, hf9, hf10,
    leUint_leBytes, h64, h32, Nat.mod_eq_of_lt hsize, Nat.mod_eq_of_lt hver,
    Nat.mod_eq_of_lt hfid, Nat.mod_eq_of_lt hct, Nat.mod_eq_of_lt hcn,
    Nat.mod_eq_of_lt hfreq, Nat.mod_eq_of_lt hbits, Nat.mod_eq_of_lt hsc,
    Nat.mod_eq_of_lt hbsz, Nat.mod_eq_of_lt hrsv, if_pos rfl, if_true]

theorem readDataChunk_mk (sz : Nat) (r : List Nat) (a : Audio) (hsz : sz < 2 ^ 64) :
    readDataChunk (mkDataChunk sz ++ r) a =
      if sz ≠ 12 + a.encodedSamples.length then .error (.badSize .dataC sz)
      else
        match readN a.encodedSamples.length r with
        | none => .error .ioShortRead
        | some (samples, rest2) => .ok ({ a with encodedSamples := samples }, rest2) := by
  have h64 : (256 : Nat) ^ 8 = 2 ^ 64 := by norm_num
  have htag : (mkDataChunk sz).take 4 = dataTag := take_app_exact (by rfl)
  have hd4 : (mkDataChunk sz).drop 4 = leBytes 8 sz := drop_app_exact (by rfl)
  have hf1 : ((mkDataChunk sz).drop 4).take 8 = leBytes 8 sz := by
    rw [hd4, List.take_of_length_le (by rw [leBytes_length])]
  rw [readDataChunk, readN_exact (mkDataChunk_length sz) r]
  simp only [htag, hf1, leUint_leBytes, h64, Nat.mod_eq_of_lt hsz, if_pos rfl, if_true]

theorem readDSDChunk_wrongTag (t4 p r : List Nat) (a : Audio)
    (h4 : t4.length = 4) (hp : p.length = 24) (hne : t4 ≠ dsdTag) :
    readDSDChunk ((t4 ++ p) ++ r) a =
      if t4 = fmtTag then .error (.wrongChunk .dsdC .fmtC)
      else if t4 = dataTag then .error (.wrongChunk .dsdC .dataC)
      else .error (.badHeader .dsdC (t4 ++ p)) := by
  have hlen : (t4 ++ p).length = 28 := by rw [List.length_append, h4, hp]
  have htake : (t4 ++ p).take 4 = t4 := List.take_left' h4
  rw [readDSDChunk, readN_exact hlen r]
  simp only [htake, if_neg hne]

theorem readFmtChunk_wrongTag (t4 p r : List Nat) (a : Audio)
    (h4 : t4.length = 4) (hp : p.length = 48) (hne : t4 ≠ fmtTag) :
    readFmtChunk ((t4 ++ p) ++ r) a =
      if t4 = dsdTag then .error (.wrongChunk .fmtC .dsdC)
      else if t4 = dataTag then .error (.wrongChunk .fmtC .dataC)
      else .error (.badHeader .fmtC (t4 ++ p)) := by
  have hlen : (t4 ++ p).length = 52 := by rw [List.length_append, h4, hp]
  have htake : (t4 ++ p).take 4 = t4 := List.take_left' h4
  rw [readFmtChunk, readN_exact hlen r]
  simp only [htake, if_neg hne]

theorem readDataChunk_wrongTag (t4 p r : List Nat) (a : Audio)
    (h4 : t4.length = 4) (hp : p.length = 8) (hne : t4 ≠ dataTag) :
    readDataChunk ((t4 ++ p) ++ r) a =
      if t4 = dsdTag then .error (.wrongChunk .dataC .dsdC)
      else if t4 = fmtTag then .error (.wrongChunk .dataC .fmtC)
      else .error (.badHeader .dataC (t4 ++ p)) := by
  have hlen : (t4 ++ p).length = 12 := by rw [List.length_append, h4, hp]
  have htake : (t4 ++ p).take 4 = t4 := List.take_left' h4
  rw [readDataChunk, readN_exact hlen r]
  simp only [htake, if_neg hne]

/-- C2: the claim states that for every Audio with a non-zero block size
the first step of encode zero-pads the sample buffer to a multiple of
BlockSize.  The source instead computes remainder = len % blockSize and
calls make([]byte, remainder, 0), whose capacity 0 is smaller than its
length whenever remainder > 0, so the padding step panics at run time on
every buffer that actually needs padding: on a 1-byte buffer with block
size 4096, Encode aborts with a runtime panic and writes nothing. -/
theorem c2_encode_padding_step_panics :
    Encode c2audio = ([], some .runtimePanic) ∧
    c2audio.blockSize = 4096 ∧ c2audio.encodedSamples.length % c2audio.blockSize ≠ 0 := by
  refine ⟨by decide, by decide, by decide⟩

/-- C4: the claim states that the fmt chunk emitted by a successful
writeFmtChunk carries the Audio's sample count verbatim at offset 36 and
block-size 4096 at offset 44.  The source never assigns the SampleCount,
BlockSize or Reserved fields of the output struct (the dangling
"SampleCount" comment at src/audio/dsf/fmt.go line 334 marks the gap), so
on the valid stereo Audio c4audio the emitted chunk has 0 in the
sample-count field and 0 — not 4096 — in the block-size field. -/
theorem c4_writeFmtChunk_zero_sample_count_and_block_size :
    writeFmtChunkBytes c4audio = .ok c4chunk ∧
    leUint ((c4chunk.drop 36).take 8) = 0 ∧
    leUint ((c4chunk.drop 44).take 4) = 0 ∧
    leUint ((c4chunk.drop 48).take 4) = 0 ∧
    (0 : Nat) ≠ 4096 := by
  refine ⟨rfl, by decide, by decide, by decide, by decide⟩


/-- C3 counterexample: the claim predicts that sample-count 32768 at
1 bit per sample with block-size 4096 and 1 channel pre-allocates a
4096-byte buffer (ceil rounding that leaves exact multiples unchanged);
readFmtChunk actually allocates 8192 bytes. -/
theorem c3_counterexample_32768_samples :
    readFmtChunk c3chunk emptyAudio = .ok (c3audioResult, []) ∧
    c3audioResult.encodedSamples.length = 8192 ∧
    bytesPerChannelClaimed 32768 1 4096 * 1 = 4096 ∧
    (8192 : Nat) ≠ 4096 := by
  refine ⟨rfl, ?_, by decide, by decide⟩
  simp only [c3audioResult]
  rw [List.length_replicate]

/-- C10: the decoder checks total-file-size only for being at least 92 and
never reconciles it with the bytes actually present: this 4188-byte stream
declares total-file-size 92 (with metadata pointer 0) while its fmt chunk
makes the decoder read a 4096-byte sample payload, and Decode succeeds. -/
theorem c10_decode_accepts_inconsistent_total_file_size :
    Decode c10stream = .ok c10audio ∧
    leUint ((c10stream.drop 12).take 8) = 92 ∧
    leUint ((c10stream.drop 20).take 8) = 0 ∧
    c10stream.length = 4188 ∧
    (92 : Nat) ≠ 4188 := by
  have hdsd : readDSDChunk c10stream emptyAudio =
      .ok (emptyAudio, mkFmtChunk 52 1 0 1 1 2822400 1 1 4096 0 ++
        (mkDataChunk 4108 ++ List.replicate 4096 0)) := by
    rw [c10stream, readDSDChunk_mk 28 92 0 _ emptyAudio (by norm_num) (by norm_num)
      (by norm_num)]
    rw [if_neg (by norm_num : ¬((28 : Nat) ≠ 28)), if_neg (by norm_num : ¬((92 : Nat) < 92)),
      if_neg (by norm_num : ¬((0 : Nat) ≠ 0))]
  have harith : ((1 / (8 / 1) + (4096 - 1 / (8 / 1) % 4096)) % 2 ^ 64 * 1) % 2 ^ 64 = 4096 := by
    norm_num
  have hfmt : readFmtChunk (mkFmtChunk 52 1 0 1 1 2822400 1 1 4096 0 ++
      (mkDataChunk 4108 ++ List.replicate 4096 0)) emptyAudio =
      .ok ({ emptyAudio with
              encoding := .dsd, numChannels := 1, channelOrder := [.center],
              samplingFrequency := 2822400, bitsPerSample := 1, blockSize := 4096,
              encodedSamples := List.replicate 4096 0 },
        mkDataChunk 4108 ++ List.replicate 4096 0) := by
    rw [readFmtChunk_mk 52 1 0 1 1 2822400 1 1 4096 0 _ emptyAudio
      (by norm_num) (by norm_num) (by norm_num) (by norm_num) (by norm_num)
      (by norm_num) (by norm_num) (by norm_num) (by norm_num) (by norm_num)]
    rw [if_neg (by norm_num : ¬((52 : Nat) ≠ 52)), if_neg (by norm_num : ¬((1 : Nat) ≠ 1)),
      if_neg (by norm_num : ¬((0 : Nat) ≠ 0))]
    rw [show fmtChannelOrder 1 = some [Channel.center] from rfl]
    dsimp only
    rw [if_neg (by decide : ¬((1 : Nat) ∉ fmtChannelNumKeys)),
      if_neg (by decide : ¬((1 : Nat) ≠ [Channel.center].length)),
      if_neg (by decide : ¬((2822400 : Nat) ∉ fmtSamplingFrequencyKeys)),
      if_neg (by decide : ¬((1 : Nat) ∉ fmtBitsPerSampleKeys)),
      if_neg (by norm_num : ¬((4096 : Nat) ≠ 4096)),
      if_neg (by norm_num : ¬((0 : Nat) ≠ 0)), harith]
  have hrepl : (List.replicate (4096 : Nat) (0 : Nat)).length = 4096 :=
    List.length_replicate 4096 0
  have hdata : readDataChunk (mkDataChunk 4108 ++ List.replicate 4096 0)
      { emptyAudio with
          encoding := .dsd, numChannels := 1, channelOrder := [.center],
          samplingFrequency := 2822400, bitsPerSample := 1, blockSize := 4096,
          encodedSamples := List.replicate 4096 0 } = .ok (c10audio, []) := by
    rw [readDataChunk_mk 4108 _ _ (by norm_num)]
    dsimp only
    rw [hrepl]
    have hrn : readN (4096 : Nat) (List.replicate (4096 : Nat) (0 : Nat)) =
        some (List.replicate (4096 : Nat) (0 : Nat), []) := by
      conv in List.replicate 4096 0 => rw [show List.replicate (4096 : Nat) (0 : Nat) =
        List.replicate (4096 : Nat) (0 : Nat) ++ [] from (List.append_nil _).symm]
      exact readN_exact hrepl []
    rw [if_neg (by norm_num), hrn]
    rfl
  have hassoc : c10stream = dsdTag ++ (leBytes 8 28 ++ (leBytes 8 92 ++ (leBytes 8 0 ++
      (mkFmtChunk 52 1 0 1 1 2822400 1 1 4096 0 ++
        (mkDataChunk 4108 ++ List.replicate 4096 0))))) := by
    rw [c10stream, mkDsdChunk]
    simp only [List.append_assoc]
  have hd4 : c10stream.drop 4 = leBytes 8 28 ++ (leBytes 8 92 ++ (leBytes 8 0 ++
      (mkFmtChunk 52 1 0 1 1 2822400 1 1 4096 0 ++
        (mkDataChunk 4108 ++ List.replicate 4096 0)))) := by
    rw [hassoc]; exact drop_app_exact (by rfl)
  have hd12 : c10stream.drop 12 = leBytes 8 92 ++ (leBytes 8 0 ++
      (mkFmtChunk 52 1 0 1 1 2822400 1 1 4096 0 ++
        (mkDataChunk 4108 ++ List.replicate 4096 0))) := by
    have h' : c10stream.drop 12 = (c10stream.drop 4).drop 8 := by rw [List.drop_drop]
    rw [h', hd4, drop_app_exact (leBytes_length 8 28)]
  have hd20 : c10stream.drop 20 = leBytes 8 0 ++
      (mkFmtChunk 52 1 0 1 1 2822400 1 1 4096 0 ++
        (mkDataChunk 4108 ++ List.replicate 4096 0)) := by
    have h' : c10stream.drop 20 = (c10stream.drop 12).drop 8 := by rw [List.drop_drop]
    rw [h', hd12, drop_app_exact (leBytes_length 8 92)]
  refine ⟨?_, ?_, ?_, ?_, by decide⟩
  · rw [Decode, decode, hdsd]
    simp only [hfmt, hdata]
    rw [readMetadataStage]
    norm_num [c10audio, emptyAudio]
  · rw [hd12, take_app_exact (leBytes_length 8 92), leUint_leBytes]
    norm_num
  · rw [hd20, take_app_exact (leBytes_length 8 0), leUint_leBytes]
    norm_num
  · rw [c10stream]
    simp only [List.length_append, mkDsdChunk_length, mkFmtChunk_length, mkDataChunk_length,
      List.length_replicate]

theorem fmtChannelOrder_lt {n : Nat} {o : List Channel} (h : fmtChannelOrder n = some o) :
    n < 8 := by
  by_contra hn
  push_neg at hn
  obtain ⟨k, rfl⟩ : ∃ k, n = k + 8 := ⟨n - 8, by omega⟩
  rw [show fmtChannelOrder (k + 8) = none from rfl] at h
  exact Option.noConfusion h

theorem channelNum_le_six {n : Nat} (h : n ∈ fmtChannelNumKeys) : n ≤ 6 := by
  fin_cases h <;> norm_num

theorem channelNum_lt_u32 {n : Nat} (h : n ∈ fmtChannelNumKeys) : n < 2 ^ 32 := by
  fin_cases h <;> norm_num

theorem samplingFrequency_lt_u32 {n : Nat} (h : n ∈ fmtSamplingFrequencyKeys) : n < 2 ^ 32 := by
  fin_cases h <;> norm_num

theorem bitsPerSample_cases {n : Nat} (h : n ∈ fmtBitsPerSampleKeys) : n = 1 ∨ n = 8 := by
  simp [fmtBitsPerSampleKeys] at h
  exact h

theorem bitsPerSample_lt_u32 {n : Nat} (h : n ∈ fmtBitsPerSampleKeys) : n < 2 ^ 32 := by
  fin_cases h <;> norm_num

theorem readFmtChunk_valid (ct cn freq bits sc : Nat) (r : List Nat) (a : Audio)
    (order : List Channel) (hord : fmtChannelOrder ct = some order)
    (hcnk : cn ∈ fmtChannelNumKeys) (hlen : cn = order.length)
    (hfreq : freq ∈ fmtSamplingFrequencyKeys) (hbits : bits ∈ fmtBitsPerSampleKeys)
    (hsc : sc < 2 ^ 64) :
    readFmtChunk (mkFmtChunk 52 1 0 ct cn freq bits sc 4096 0 ++ r) a =
      .ok ({ a with
              encoding := .dsd, numChannels := cn, channelOrder := order,
              samplingFrequency := freq, bitsPerSample := bits, blockSize := 4096,
              encodedSamples := List.replicate
                (((sc / (8 / bits) + (4096 - sc / (8 / bits) % 4096)) % 2 ^ 64 * cn)
                  % 2 ^ 64) 0 }, r) := by
  have hct32 : ct < 2 ^ 32 := lt_of_lt_of_le (fmtChannelOrder_lt hord) (by norm_num)
  rw [readFmtChunk_mk 52 1 0 ct cn freq bits sc 4096 0 r a (by norm_num) (by norm_num)
    (by norm_num) hct32 (channelNum_lt_u32 hcnk) (samplingFrequency_lt_u32 hfreq)
    (bitsPerSample_lt_u32 hbits) hsc (by norm_num) (by norm_num)]
  rw [if_neg (by norm_num : ¬((52 : Nat) ≠ 52)), if_neg (by norm_num : ¬((1 : Nat) ≠ 1)),
    if_neg (by norm_num : ¬((0 : Nat) ≠ 0)), hord]
  dsimp only
  rw [if_neg (not_not_intro hcnk), if_neg (not_not_intro hlen),
    if_neg (not_not_intro hfreq), if_neg (not_not_intro hbits),
    if_neg (by norm_num : ¬((4096 : Nat) ≠ 4096)), if_neg (by norm_num : ¬((0 : Nat) ≠ 0))]

/-- C3 (amended): for every fmt chunk accepted by readFmtChunk, the
pre-allocated sample buffer length equals bytes-per-channel times
channel-count, where bytes-per-channel is floor(sample-count / (8 /
bits-per-sample)) plus block-size minus that quotient's remainder modulo
block-size: the rounding always adds between 1 and block-size bytes, so a
quotient already a multiple of block-size gains a full extra block (the
stated bound on the sample count keeps the uint64 arithmetic from
wrapping). -/
theorem c3_amended_sample_buffer_length (ct cn freq bits sc : Nat) (r : List Nat)
    (a : Audio) (order : List Channel)
    (hord : fmtChannelOrder ct = some order) (hcnk : cn ∈ fmtChannelNumKeys)
    (hlen : cn = order.length) (hfreq : freq ∈ fmtSamplingFrequencyKeys)
    (hbits : bits ∈ fmtBitsPerSampleKeys) (hsc : sc < 2 ^ 52) :
    ∃ a2, readFmtChunk (mkFmtChunk 52 1 0 ct cn freq bits sc 4096 0 ++ r) a = .ok (a2, r) ∧
      a2.encodedSamples.length = bytesPerChannelAmended sc bits 4096 * cn ∧
      bytesPerChannelAmended sc bits 4096 % 4096 = 0 ∧
      sc / (8 / bits) < bytesPerChannelAmended sc bits 4096 ∧
      bytesPerChannelAmended sc bits 4096 ≤ sc / (8 / bits) + 4096 := by
  refine ⟨_, readFmtChunk_valid ct cn freq bits sc r a order hord hcnk hlen hfreq hbits
    (lt_trans hsc (by norm_num)), ?_, ?_, ?_, ?_⟩
  · dsimp only
    rw [List.length_replicate, bytesPerChannelAmended]
    have hq : sc / (8 / bits) ≤ sc := Nat.div_le_self sc (8 / bits)
    have hA : sc / (8 / bits) + (4096 - sc / (8 / bits) % 4096) < 2 ^ 64 := by
      have := Nat.mod_le (sc / (8 / bits)) 4096
      omega
    have hcn6 : cn ≤ 6 := channelNum_le_six hcnk
    have hAcn : (sc / (8 / bits) + (4096 - sc / (8 / bits) % 4096)) * cn < 2 ^ 64 := by
      calc (sc / (8 / bits) + (4096 - sc / (8 / bits) % 4096)) * cn
          ≤ (sc / (8 / bits) + (4096 - sc / (8 / bits) % 4096)) * 6 :=
            Nat.mul_le_mul_left _ hcn6
        _ < 2 ^ 64 := by omega
    rw [Nat.mod_eq_of_lt hA, Nat.mod_eq_of_lt hAcn]
  · rw [bytesPerChannelAmended]
    omega
  · rw [bytesPerChannelAmended]
    have := Nat.mod_lt (sc / (8 / bits)) (show 0 < 4096 by norm_num)
    omega
  · rw [bytesPerChannelAmended]
    omega

/-- Witness for c3_amended_sample_buffer_length at a concrete stereo
chunk with sample count 5. -/
theorem c3_amended_sample_buffer_length_witness :
    ∃ a2, readFmtChunk (mkFmtChunk 52 1 0 2 2 2822400 1 5 4096 0 ++ []) emptyAudio =
        .ok (a2, []) ∧
      a2.encodedSamples.length = bytesPerChannelAmended 5 1 4096 * 2 ∧
      bytesPerChannelAmended 5 1 4096 % 4096 = 0 ∧
      5 / (8 / 1) < bytesPerChannelAmended 5 1 4096 ∧
      bytesPerChannelAmended 5 1 4096 ≤ 5 / (8 / 1) + 4096 :=
  c3_amended_sample_buffer_length 2 2 2822400 1 5 [] emptyAudio
    [.frontLeft, .frontRight] (by decide) (by decide) (by decide) (by decide)
    (by decide) (by norm_num)

theorem readFmtChunk_badChannelType (ct cn freq bits sc : Nat) (r : List Nat) (a : Audio)
    (hct32 : ct < 2 ^ 32) (hcn32 : cn < 2 ^ 32) (hfreq32 : freq < 2 ^ 32)
    (hbits32 : bits < 2 ^ 32) (hsc : sc < 2 ^ 64) (hord : fmtChannelOrder ct = none) :
    readFmtChunk (mkFmtChunk 52 1 0 ct cn freq bits sc 4096 0 ++ r) a =
      .error (.badChannelType ct) := by
  rw [readFmtChunk_mk 52 1 0 ct cn freq bits sc 4096 0 r a (by norm_num) (by norm_num)
    (by norm_num) hct32 hcn32 hfreq32 hbits32 hsc (by norm_num) (by norm_num)]
  rw [if_neg (by norm_num : ¬((52 : Nat) ≠ 52)), if_neg (by norm_num : ¬((1 : Nat) ≠ 1)),
    if_neg (by norm_num : ¬((0 : Nat) ≠ 0)), hord]

theorem readFmtChunk_badChannelNum (ct cn freq bits sc : Nat) (r : List Nat) (a : Audio)
    (order : List Channel) (hord : fmtChannelOrder ct = some order)
    (hcn32 : cn < 2 ^ 32) (hfreq32 : freq < 2 ^ 32) (hbits32 : bits < 2 ^ 32)
    (hsc : sc < 2 ^ 64) (hcnk : cn ∉ fmtChannelNumKeys) :
    readFmtChunk (mkFmtChunk 52 1 0 ct cn freq bits sc 4096 0 ++ r) a =
      .error (.badChannelNum cn) := by
  have hct32 : ct < 2 ^ 32 := lt_of_lt_of_le (fmtChannelOrder_lt hord) (by norm_num)
  rw [readFmtChunk_mk 52 1 0 ct cn freq bits sc 4096 0 r a (by norm_num) (by norm_num)
    (by norm_num) hct32 hcn32 hfreq32 hbits32 hsc (by norm_num) (by norm_num)]
  rw [if_neg (by norm_num : ¬((52 : Nat) ≠ 52)), if_neg (by norm_num : ¬((1 : Nat) ≠ 1)),
    if_neg (by norm_num : ¬((0 : Nat) ≠ 0)), hord]
  dsimp only
  rw [if_pos hcnk]

theorem readFmtChunk_channelMismatch (ct cn freq bits sc : Nat) (r : List Nat) (a : Audio)
    (order : List Channel) (hord : fmtChannelOrder ct = some order)
    (hfreq32 : freq < 2 ^ 32) (hbits32 : bits < 2 ^ 32) (hsc : sc < 2 ^ 64)
    (hcnk : cn ∈ fmtChannelNumKeys) (hlen : cn ≠ order.length) :
    readFmtChunk (mkFmtChunk 52 1 0 ct cn freq bits sc 4096 0 ++ r) a =
      .error (.channelMismatch ct cn) := by
  have hct32 : ct < 2 ^ 32 := lt_of_lt_of_le (fmtChannelOrder_lt hord) (by norm_num)
  rw [readFmtChunk_mk 52 1 0 ct cn freq bits sc 4096 0 r a (by norm_num) (by norm_num)
    (by norm_num) hct32 (channelNum_lt_u32 hcnk) hfreq32 hbits32 hsc (by norm_num)
    (by norm_num)]
  rw [if_neg (by norm_num : ¬((52 : Nat) ≠ 52)), if_neg (by norm_num : ¬((1 : Nat) ≠ 1)),
    if_neg (by norm_num : ¬((0 : Nat) ≠ 0)), hord]
  dsimp only
  rw [if_neg (not_not_intro hcnk), if_pos hlen]

/-- C5: with tag, size, version, format-id, sampling frequency, bits per
sample, block size and reserved all valid, readFmtChunk succeeds exactly
when (channel-type, channel-count) is one of the seven defined pairings;
every other pairing errors, and a mismatched pairing of two individually
valid values yields the error naming both values. -/
theorem c5_channel_type_num_pairings (ct cn freq bits sc : Nat) (r : List Nat) (a : Audio)
    (hct32 : ct < 2 ^ 32) (hcn32 : cn < 2 ^ 32)
    (hfreq : freq ∈ fmtSamplingFrequencyKeys) (hbits : bits ∈ fmtBitsPerSampleKeys)
    (hsc : sc < 2 ^ 64) :
    ((∃ res, readFmtChunk (mkFmtChunk 52 1 0 ct cn freq bits sc 4096 0 ++ r) a = .ok res) ↔
      (ct, cn) ∈ [(1, 1), (2, 2), (3, 3), (4, 4), (5, 4), (6, 5), (7, 6)]) ∧
    (∀ order, fmtChannelOrder ct = some order → cn ∈ fmtChannelNumKeys →
      cn ≠ order.length →
      readFmtChunk (mkFmtChunk 52 1 0 ct cn freq bits sc 4096 0 ++ r) a =
        .error (.channelMismatch ct cn)) := by
  have hfreq32 := samplingFrequency_lt_u32 hfreq
  have hbits32 := bitsPerSample_lt_u32 hbits
  constructor
  · constructor
    · rintro ⟨res, hres⟩
      rcases hord : fmtChannelOrder ct with _ | order
      · rw [readFmtChunk_badChannelType ct cn freq bits sc r a hct32 hcn32 hfreq32 hbits32
          hsc hord] at hres
        exact Except.noConfusion hres
      · by_cases hcnk : cn ∈ fmtChannelNumKeys
        · by_cases hlen : cn = order.length
          · have h8 := fmtChannelOrder_lt hord
            interval_cases ct
            · exact absurd hord (by simp [fmtChannelOrder])
            all_goals
              simp only [fmtChannelOrder, Option.some.injEq] at hord
            all_goals subst hord
            all_goals simp only [List.length_cons, List.length_nil] at hlen
            all_goals subst hlen
            all_goals decide
          · rw [readFmtChunk_channelMismatch ct cn freq bits sc r a order hord hfreq32
              hbits32 hsc hcnk hlen] at hres
            exact Except.noConfusion hres
        · rw [readFmtChunk_badChannelNum ct cn freq bits sc r a order hord hcn32 hfreq32
            hbits32 hsc hcnk] at hres
          exact Except.noConfusion hres
    · intro hmem
      simp only [List.mem_cons, List.not_mem_nil, or_false, Prod.mk.injEq] at hmem
      rcases hmem with ⟨rfl, rfl⟩ | ⟨rfl, rfl⟩ | ⟨rfl, rfl⟩ | ⟨rfl, rfl⟩ | ⟨rfl, rfl⟩ |
        ⟨rfl, rfl⟩ | ⟨rfl, rfl⟩
      · exact ⟨_, readFmtChunk_valid 1 1 freq bits sc r a [.center]
          (by decide) (by decide) (by decide) hfreq hbits hsc⟩
      · exact ⟨_, readFmtChunk_valid 2 2 freq bits sc r a [.frontLeft, .frontRight]
          (by decide) (by decide) (by decide) hfreq hbits hsc⟩
      · exact ⟨_, readFmtChunk_valid 3 3 freq bits sc r a [.frontLeft, .frontRight, .center]
          (by decide) (by decide) (by decide) hfreq hbits hsc⟩
      · exact ⟨_, readFmtChunk_valid 4 4 freq bits sc r a
          [.frontLeft, .frontRight, .backLeft, .backRight]
          (by decide) (by decide) (by decide) hfreq hbits hsc⟩
      · exact ⟨_, readFmtChunk_valid 5 4 freq bits sc r a
          [.frontLeft, .frontRight, .center, .lowFrequency]
          (by decide) (by decide) (by decide) hfreq hbits hsc⟩
      · exact ⟨_, readFmtChunk_valid 6 5 freq bits sc r a
          [.frontLeft, .frontRight, .center, .backLeft, .backRight]
          (by decide) (by decide) (by decide) hfreq hbits hsc⟩
      · exact ⟨_, readFmtChunk_valid 7 6 freq bits sc r a
          [.frontLeft, .frontRight, .center, .lowFrequency, .backLeft, .backRight]
          (by decide) (by decide) (by decide) hfreq hbits hsc⟩
  · intro order hord hcnk hlen
    exact readFmtChunk_channelMismatch ct cn freq bits sc r a order hord hfreq32 hbits32
      hsc hcnk hlen

/-- Witness for c5_channel_type_num_pairings at channel type 5 ("4
channels") with channel count 4. -/
theorem c5_channel_type_num_pairings_witness :
    ((∃ res, readFmtChunk (mkFmtChunk 52 1 0 5 4 2822400 1 0 4096 0 ++ []) emptyAudio =
        .ok res) ↔
      ((5 : Nat), (4 : Nat)) ∈ [(1, 1), (2, 2), (3, 3), (4, 4), (5, 4), (6, 5), (7, 6)]) ∧
    (∀ order, fmtChannelOrder 5 = some order → 4 ∈ fmtChannelNumKeys →
      4 ≠ order.length →
      readFmtChunk (mkFmtChunk 52 1 0 5 4 2822400 1 0 4096 0 ++ []) emptyAudio =
        .error (.channelMismatch 5 4)) :=
  c5_channel_type_num_pairings 5 4 2822400 1 0 [] emptyAudio (by norm_num) (by norm_num)
    (by decide) (by decide) (by norm_num)

theorem readN_of_le {n : Nat} {s : List Nat} (h : n ≤ s.length) :
    readN n s = some (s.take n, s.drop n) := by
  rw [readN, if_pos h]

/-- C6: with a valid DSD tag, size 28 and total-file-size t ≥ 92, a
metadata pointer of 0 leaves the metadata buffer empty so the decoder's
fourth stage reads nothing; a pointer strictly between 92 and t makes
readDSDChunk pre-allocate a buffer of exactly t − mp bytes and
readMetadataChunk then reads exactly that many bytes from the stream; a
non-zero pointer that is ≤ 92 or ≥ t is rejected with the
bad-metadata-pointer error. -/
theorem c6_metadata_pointer_boundary (t mp : Nat) (r : List Nat) (a : Audio)
    (ht64 : t < 2 ^ 64) (hmp64 : mp < 2 ^ 64) (ht92 : 92 ≤ t) :
    (mp = 0 → readDSDChunk (mkDsdChunk 28 t mp ++ r) a = .ok (a, r)) ∧
    (∀ s a2, a2.metadata.length = 0 → readMetadataStage s a2 = .ok a2) ∧
    (92 < mp → mp < t →
      readDSDChunk (mkDsdChunk 28 t mp ++ r) a =
        .ok ({ a with metadata := List.replicate (t - mp) 0 }, r) ∧
      (List.replicate (t - mp) (0 : Nat)).length = t - mp) ∧
    (∀ s a2, 4 ≤ a2.metadata.length → a2.metadata.length ≤ s.length →
      (s.take 4 ≠ dsdTag ∧ s.take 4 ≠ fmtTag ∧ s.take 4 ≠ dataTag) →
      readMetadataChunk s a2 =
        .ok ({ a2 with metadata := s.take a2.metadata.length },
          s.drop a2.metadata.length)) ∧
    (mp ≠ 0 → (mp ≤ 92 ∨ t ≤ mp) →
      readDSDChunk (mkDsdChunk 28 t mp ++ r) a = .error (.badMetadataPtr mp)) := by
  refine ⟨?_, ?_, ?_, ?_, ?_⟩
  · rintro rfl
    rw [readDSDChunk_mk 28 t 0 r a (by norm_num) ht64 (by norm_num)]
    rw [if_neg (by norm_num : ¬((28 : Nat) ≠ 28)), if_neg (by omega : ¬(t < 92)),
      if_neg (by norm_num : ¬((0 : Nat) ≠ 0))]
  · intro s a2 h0
    rw [readMetadataStage, if_neg (by omega : ¬(0 < a2.metadata.length))]
  · intro h1 h2
    refine ⟨?_, List.length_replicate _ _⟩
    rw [readDSDChunk_mk 28 t mp r a (by norm_num) ht64 hmp64]
    rw [if_neg (by norm_num : ¬((28 : Nat) ≠ 28)), if_neg (by omega : ¬(t < 92)),
      if_pos (by omega : mp ≠ 0), if_neg (by omega : ¬(t ≤ mp ∨ mp ≤ 92))]
  · intro s a2 h4 hle hne
    rw [readMetadataChunk, readN_of_le hle]
    dsimp only
    have hmlen : (s.take a2.metadata.length).length = a2.metadata.length := by
      rw [List.length_take, Nat.min_eq_left hle]
    have hm4 : (s.take a2.metadata.length).take 4 = s.take 4 := by
      rw [List.take_take, Nat.min_eq_left h4]
    rw [hmlen, if_neg (by omega : ¬(a2.metadata.length < 4)), hm4,
      if_neg hne.1, if_neg hne.2.1, if_neg hne.2.2]
  · intro h1 h2
    rw [readDSDChunk_mk 28 t mp r a (by norm_num) ht64 hmp64]
    rw [if_neg (by norm_num : ¬((28 : Nat) ≠ 28)), if_neg (by omega : ¬(t < 92)),
      if_pos h1, if_pos (by omega : t ≤ mp ∨ mp ≤ 92)]

/-- Witness for c6_metadata_pointer_boundary at total-file-size 200 and
metadata pointer 100. -/
theorem c6_metadata_pointer_boundary_witness :
    ((100 : Nat) = 0 → readDSDChunk (mkDsdChunk 28 200 100 ++ []) emptyAudio =
      .ok (emptyAudio, [])) ∧
    (∀ s a2, a2.metadata.length = 0 → readMetadataStage s a2 = .ok a2) ∧
    (92 < 100 → 100 < 200 →
      readDSDChunk (mkDsdChunk 28 200 100 ++ []) emptyAudio =
        .ok ({ emptyAudio with metadata := List.replicate (200 - 100) 0 }, []) ∧
      (List.replicate (200 - 100) (0 : Nat)).length = 200 - 100) ∧
    (∀ s a2, 4 ≤ a2.metadata.length → a2.metadata.length ≤ s.length →
      (s.take 4 ≠ dsdTag ∧ s.take 4 ≠ fmtTag ∧ s.take 4 ≠ dataTag) →
      readMetadataChunk s a2 =
        .ok ({ a2 with metadata := s.take a2.metadata.length },
          s.drop a2.metadata.length)) ∧
    ((100 : Nat) ≠ 0 → ((100 : Nat) ≤ 92 ∨ (200 : Nat) ≤ 100) →
      readDSDChunk (mkDsdChunk 28 200 100 ++ []) emptyAudio =
        .error (.badMetadataPtr 100)) :=
  c6_metadata_pointer_boundary 200 100 [] emptyAudio (by norm_num) (by norm_num)
    (by norm_num)

/-- C7: for each of the three mandatory chunk readers, a tag that is not
the expected one yields the specific out-of-order error when it is one of
the other two known tags, and otherwise the generic bad-header error
carrying the raw chunk bytes that were read. -/
theorem c7_foreign_tag_policy (t4 p24 p48 p8 r : List Nat) (a : Audio)
    (h4 : t4.length = 4) (hp24 : p24.length = 24) (hp48 : p48.length = 48)
    (hp8 : p8.length = 8) :
    (t4 ≠ dsdTag →
      readDSDChunk ((t4 ++ p24) ++ r) a =
        if t4 = fmtTag then .error (.wrongChunk .dsdC .fmtC)
        else if t4 = dataTag then .error (.wrongChunk .dsdC .dataC)
        else .error (.badHeader .dsdC (t4 ++ p24))) ∧
    (t4 ≠ fmtTag →
      readFmtChunk ((t4 ++ p48) ++ r) a =
        if t4 = dsdTag then .error (.wrongChunk .fmtC .dsdC)
        else if t4 = dataTag then .error (.wrongChunk .fmtC .dataC)
        else .error (.badHeader .fmtC (t4 ++ p48))) ∧
    (t4 ≠ dataTag →
      readDataChunk ((t4 ++ p8) ++ r) a =
        if t4 = dsdTag then .error (.wrongChunk .dataC .dsdC)
        else if t4 = fmtTag then .error (.wrongChunk .dataC .fmtC)
        else .error (.badHeader .dataC (t4 ++ p8))) :=
  ⟨fun hne => readDSDChunk_wrongTag t4 p24 r a h4 hp24 hne,
   fun hne => readFmtChunk_wrongTag t4 p48 r a h4 hp48 hne,
   fun hne => readDataChunk_wrongTag t4 p8 r a h4 hp8 hne⟩

/-- Witness for c7_foreign_tag_policy with the foreign tag "ID3\x03" and
zero-filled payloads. -/
theorem c7_foreign_tag_policy_witness :
    (([73, 68, 51, 3] : List Nat) ≠ dsdTag →
      readDSDChunk (([73, 68, 51, 3] ++ List.replicate 24 0) ++ []) emptyAudio =
        if ([73, 68, 51, 3] : List Nat) = fmtTag then .error (.wrongChunk .dsdC .fmtC)
        else if ([73, 68, 51, 3] : List Nat) = dataTag then
          .error (.wrongChunk .dsdC .dataC)
        else .error (.badHeader .dsdC ([73, 68, 51, 3] ++ List.replicate 24 0))) ∧
    (([73, 68, 51, 3] : List Nat) ≠ fmtTag →
      readFmtChunk (([73, 68, 51, 3] ++ List.replicate 48 0) ++ []) emptyAudio =
        if ([73, 68, 51, 3] : List Nat) = dsdTag then .error (.wrongChunk .fmtC .dsdC)
        else if ([73, 68, 51, 3] : List Nat) = dataTag then
          .error (.wrongChunk .fmtC .dataC)
        else .error (.badHeader .fmtC ([73, 68, 51, 3] ++ List.replicate 48 0))) ∧
    (([73, 68, 51, 3] : List Nat) ≠ dataTag →
      readDataChunk (([73, 68, 51, 3] ++ List.replicate 8 0) ++ []) emptyAudio =
        if ([73, 68, 51, 3] : List Nat) = dsdTag then .error (.wrongChunk .dataC .dsdC)
        else if ([73, 68, 51, 3] : List Nat) = fmtTag then
          .error (.wrongChunk .dataC .fmtC)
        else .error (.badHeader .dataC ([73, 68, 51, 3] ++ List.replicate 8 0))) :=
  c7_foreign_tag_policy [73, 68, 51, 3] (List.replicate 24 0) (List.replicate 48 0)
    (List.replicate 8 0) [] emptyAudio (by decide) (by decide) (by decide) (by decide)

/-- C8: with a valid tag, the declared chunk size must be exactly 28 for
the DSD chunk, 52 for the fmt chunk and 12 plus the pre-allocated sample
buffer length for the data chunk: any other value is rejected with the
bad-chunk-size error carrying the offending value, and the exact value
never produces a size error. -/
theorem c8_chunk_size_exact (szd t mp szf ver fid ct cn freq bits sc bsz rsv szdata : Nat)
    (r : List Nat) (a : Audio)
    (hszd : szd < 2 ^ 64) (ht : t < 2 ^ 64) (hmp : mp < 2 ^ 64)
    (hszf : szf < 2 ^ 64) (hver : ver < 2 ^ 32) (hfid : fid < 2 ^ 32)
    (hct : ct < 2 ^ 32) (hcn : cn < 2 ^ 32) (hfreq : freq < 2 ^ 32)
    (hbits : bits < 2 ^ 32) (hsc : sc < 2 ^ 64) (hbsz : bsz < 2 ^ 32)
    (hrsv : rsv < 2 ^ 32) (hszdata : szdata < 2 ^ 64)
    (hbuf : 12 + a.encodedSamples.length < 2 ^ 64) :
    ((szd ≠ 28 →
        readDSDChunk (mkDsdChunk szd t mp ++ r) a = .error (.badSize .dsdC szd)) ∧
      (∀ w n, readDSDChunk (mkDsdChunk 28 t mp ++ r) a ≠ .error (.badSize w n))) ∧
    ((szf ≠ 52 →
        readFmtChunk (mkFmtChunk szf ver fid ct cn freq bits sc bsz rsv ++ r) a =
          .error (.badSize .fmtC szf)) ∧
      (∀ w n, readFmtChunk (mkFmtChunk 52 ver fid ct cn freq bits sc bsz rsv ++ r) a ≠
        .error (.badSize w n))) ∧
    ((szdata ≠ 12 + a.encodedSamples.length →
        readDataChunk (mkDataChunk szdata ++ r) a = .error (.badSize .dataC szdata)) ∧
      (∀ w n, readDataChunk (mkDataChunk (12 + a.encodedSamples.length) ++ r) a ≠
        .error (.badSize w n))) := by
  refine ⟨⟨?_, ?_⟩, ⟨?_, ?_⟩, ⟨?_, ?_⟩⟩
  · intro hne
    rw [readDSDChunk_mk szd t mp r a hszd ht hmp, if_pos hne]
  · intro w n hcontra
    rw [readDSDChunk_mk 28 t mp r a (by norm_num) ht hmp,
      if_neg (by norm_num : ¬((28 : Nat) ≠ 28))] at hcontra
    split_ifs at hcontra <;>
      first
        | exact Except.noConfusion hcontra
        | (injection hcontra with h; exact DsfErr.noConfusion h)
  · intro hne
    rw [readFmtChunk_mk szf ver fid ct cn freq bits sc bsz rsv r a hszf hver hfid hct hcn
      hfreq hbits hsc hbsz hrsv, if_pos hne]
  · intro w n hcontra
    rw [readFmtChunk_mk 52 ver fid ct cn freq bits sc bsz rsv r a (by norm_num) hver hfid
      hct hcn hfreq hbits hsc hbsz hrsv,
      if_neg (by norm_num : ¬((52 : Nat) ≠ 52))] at hcontra
    rcases hord : fmtChannelOrder ct with _ | order <;> rw [hord] at hcontra <;>
      dsimp only at hcontra <;> split_ifs at hcontra <;>
      first
        | exact Except.noConfusion hcontra
        | (injection hcontra with h; exact DsfErr.noConfusion h)
  · intro hne
    rw [readDataChunk_mk szdata r a hszdata, if_pos hne]
  · intro w n hcontra
    rw [readDataChunk_mk (12 + a.encodedSamples.length) r a hbuf,
      if_neg (by norm_num : ¬(12 + a.encodedSamples.length ≠ 12 + a.encodedSamples.length))]
      at hcontra
    rcases hrn : readN a.encodedSamples.length r with _ | ⟨samples, rest2⟩ <;>
      rw [hrn] at hcontra <;> dsimp only at hcontra <;>
      first
        | exact Except.noConfusion hcontra
        | (injection hcontra with h; exact DsfErr.noConfusion h)

/-- Witness for c8_chunk_size_exact with sizes 27, 53 and 11 against an
empty pre-allocated sample buffer. -/
theorem c8_chunk_size_exact_witness :
    (((27 : Nat) ≠ 28 →
        readDSDChunk (mkDsdChunk 27 92 0 ++ []) emptyAudio = .error (.badSize .dsdC 27)) ∧
      (∀ w n, readDSDChunk (mkDsdChunk 28 92 0 ++ []) emptyAudio ≠
        .error (.badSize w n))) ∧
    (((53 : Nat) ≠ 52 →
        readFmtChunk (mkFmtChunk 53 1 0 2 2 2822400 1 0 4096 0 ++ []) emptyAudio =
          .error (.badSize .fmtC 53)) ∧
      (∀ w n, readFmtChunk (mkFmtChunk 52 1 0 2 2 2822400 1 0 4096 0 ++ []) emptyAudio ≠
        .error (.badSize w n))) ∧
    (((11 : Nat) ≠ 12 + emptyAudio.encodedSamples.length →
        readDataChunk (mkDataChunk 11 ++ []) emptyAudio = .error (.badSize .dataC 11)) ∧
      (∀ w n, readDataChunk (mkDataChunk (12 + emptyAudio.encodedSamples.length) ++ [])
        emptyAudio ≠ .error (.badSize w n))) :=
  c8_chunk_size_exact 27 92 0 53 1 0 2 2 2822400 1 0 4096 0 11 [] emptyAudio
    (by norm_num) (by norm_num) (by norm_num) (by norm_num) (by norm_num) (by norm_num)
    (by norm_num) (by norm_num) (by norm_num) (by norm_num) (by norm_num) (by norm_num)
    (by norm_num) (by norm_num) (by decide)

/-- C9: once the metadata bytes are read successfully (the buffer holds at
least 4 bytes and the stream has enough bytes), readMetadataChunk errors
exactly when the first 4 bytes of the metadata equal one of the three
mandatory chunk tags; any other prefix is accepted. -/
theorem c9_metadata_tag_collision (s : List Nat) (a : Audio)
    (h4 : 4 ≤ a.metadata.length) (hle : a.metadata.length ≤ s.length) :
    (∃ e, readMetadataChunk s a = .error e) ↔
      ((s.take a.metadata.length).take 4 = dsdTag ∨
       (s.take a.metadata.length).take 4 = fmtTag ∨
       (s.take a.metadata.length).take 4 = dataTag) := by
  have hmlen : (s.take a.metadata.length).length = a.metadata.length := by
    rw [List.length_take, Nat.min_eq_left hle]
  have hm4 : (s.take a.metadata.length).take 4 = s.take 4 := by
    rw [List.take_take, Nat.min_eq_left h4]
  rw [readMetadataChunk, readN_of_le hle]
  dsimp only
  rw [hmlen, if_neg (by omega : ¬(a.metadata.length < 4)), hm4]
  constructor
  · rintro ⟨e, he⟩
    by_cases h1 : s.take 4 = dsdTag
    · exact Or.inl h1
    · by_cases h2 : s.take 4 = fmtTag
      · exact Or.inr (Or.inl h2)
      · by_cases h3 : s.take 4 = dataTag
        · exact Or.inr (Or.inr h3)
        · rw [if_neg h1, if_neg h2, if_neg h3] at he
          exact Except.noConfusion he
  · intro h
    rcases h with h1 | h2 | h3
    · exact ⟨_, by rw [if_pos h1]⟩
    · have h1 : s.take 4 ≠ dsdTag := by
        intro h1
        rw [h1] at h2
        exact absurd h2 (by decide)
      exact ⟨_, by rw [if_neg h1, if_pos h2]⟩
    · have h1 : s.take 4 ≠ dsdTag := by
        intro h1
        rw [h1] at h3
        exact absurd h3 (by decide)
      have h2 : s.take 4 ≠ fmtTag := by
        intro h2
        rw [h2] at h3
        exact absurd h3 (by decide)
      exact ⟨_, by rw [if_neg h1, if_neg h2, if_pos h3]⟩

/-- Witness for c9_metadata_tag_collision: a 10-byte metadata buffer and a
stream beginning with a DSD tag. -/
theorem c9_metadata_tag_collision_witness :
    (∃ e, readMetadataChunk (dsdTag ++ List.replicate 6 0)
        { emptyAudio with metadata := List.replicate 10 0 } = .error e) ↔
      (((dsdTag ++ List.replicate 6 0).take
          ({ emptyAudio with metadata := List.replicate 10 0 } : Audio).metadata.length).take 4 =
         dsdTag ∨
       ((dsdTag ++ List.replicate 6 0).take
          ({ emptyAudio with metadata := List.replicate 10 0 } : Audio).metadata.length).take 4 =
         fmtTag ∨
       ((dsdTag ++ List.replicate 6 0).take
          ({ emptyAudio with metadata := List.replicate 10 0 } : Audio).metadata.length).take 4 =
         dataTag) :=
  c9_metadata_tag_collision (dsdTag ++ List.replicate 6 0)
    { emptyAudio with metadata := List.replicate 10 0 } (by decide) (by decide)

theorem lookupChannelType_le7 (o : List Channel) : lookupChannelType o ≤ 7 := by
  rw [lookupChannelType]
  rcases hf : ([1, 2, 3, 4, 5, 6, 7].filter fun k => fmtChannelOrder k = some o) with _ | ⟨x, xs⟩
  · simp [List.headD]
  · have hx : x ∈ ([1, 2, 3, 4, 5, 6, 7].filter fun k => fmtChannelOrder k = some o) := by
      rw [hf]; exact List.mem_cons_self x xs
    have hmem := List.mem_of_mem_filter hx
    simp only [List.headD]
    fin_cases hmem <;> norm_num

theorem lookupChannelType_spec (o : List Channel) (h : lookupChannelType o ≠ 0) :
    fmtChannelOrder (lookupChannelType o) = some o := by
  rcases hf : ([1, 2, 3, 4, 5, 6, 7].filter fun k => fmtChannelOrder k = some o) with _ | ⟨x, xs⟩
  · exfalso
    apply h
    rw [lookupChannelType, hf]
    rfl
  · rw [lookupChannelType, hf]
    have hx : x ∈ ([1, 2, 3, 4, 5, 6, 7].filter fun k => fmtChannelOrder k = some o) := by
      rw [hf]; exact List.mem_cons_self x xs
    have hp := List.of_mem_filter hx
    simp only [List.headD]
    exact of_decide_eq_true hp

theorem readFmtChunk_on_written_errors (a : Audio) (fmtB : List Nat)
    (hw : writeFmtChunkBytes a = .ok fmtB) (a0 : Audio) :
    ∃ e, readFmtChunk fmtB a0 = .error e := by
  rw [writeFmtChunkBytes] at hw
  dsimp only at hw
  split_ifs at hw with hct hmm hfq hbt
  injection hw with hfb
  subst hfb
  have hct7 : lookupChannelType a.channelOrder ≤ 7 := lookupChannelType_le7 a.channelOrder
  have hord : fmtChannelOrder (lookupChannelType a.channelOrder) = some a.channelOrder :=
    lookupChannelType_spec a.channelOrder hct
  rw [show (mkFmtChunk 52 1 0 (lookupChannelType a.channelOrder) (a.numChannels % 2 ^ 32)
      (a.samplingFrequency % 2 ^ 32) (a.bitsPerSample % 2 ^ 32) 0 0 0 : List Nat) =
    mkFmtChunk 52 1 0 (lookupChannelType a.channelOrder) (a.numChannels % 2 ^ 32)
      (a.samplingFrequency % 2 ^ 32) (a.bitsPerSample % 2 ^ 32) 0 0 0 ++ []
    from (List.append_nil _).symm]
  rw [readFmtChunk_mk 52 1 0 (lookupChannelType a.channelOrder) (a.numChannels % 2 ^ 32)
    (a.samplingFrequency % 2 ^ 32) (a.bitsPerSample % 2 ^ 32) 0 0 0 [] a0
    (by norm_num) (by norm_num) (by norm_num) (by omega) (Nat.mod_lt _ (by norm_num))
    (Nat.mod_lt _ (by norm_num)) (Nat.mod_lt _ (by norm_num)) (by norm_num) (by norm_num)
    (by norm_num)]
  rw [if_neg (by norm_num : ¬((52 : Nat) ≠ 52)), if_neg (by norm_num : ¬((1 : Nat) ≠ 1)),
    if_neg (by norm_num : ¬((0 : Nat) ≠ 0)), hord]
  dsimp only
  by_cases hcnk : a.numChannels % 2 ^ 32 ∈ fmtChannelNumKeys
  · by_cases hlen : a.numChannels % 2 ^ 32 = a.channelOrder.length
    · rw [if_neg (not_not_intro hcnk), if_neg (not_not_intro hlen),
        if_neg (not_not_intro hfq), if_neg (not_not_intro hbt),
        if_pos (by norm_num : (0 : Nat) ≠ 4096)]
      exact ⟨_, rfl⟩
    · rw [if_neg (not_not_intro hcnk), if_pos hlen]
      exact ⟨_, rfl⟩
  · rw [if_pos hcnk]
    exact ⟨_, rfl⟩

theorem readDSDChunk_ok_rest {s : List Nat} {a a1 : Audio} {r1 : List Nat}
    (h : readDSDChunk s a = .ok (a1, r1)) : r1 = s.drop 28 := by
  rw [readDSDChunk] at h
  rcases hrn : readN 28 s with _ | ⟨c, rest⟩ <;> rw [hrn] at h
  · exact Except.noConfusion h
  · have hrest : rest = s.drop 28 := by
      rw [readN] at hrn
      split_ifs at hrn
      injection hrn with h'
      injection h' with h1 h2
      exact h2.symm
    dsimp only at h
    split_ifs at h <;>
      first
        | exact Except.noConfusion h
        | (injection h with h'
           injection h' with ha hr
           rw [← hr, hrest])

theorem decode_of_written_errors (a : Audio) (fmtB : List Nat)
    (hw : writeFmtChunkBytes a = .ok fmtB) :
    ∃ e, decode (writeDSDChunkBytes a ++ fmtB) = .error e := by
  rw [decode]
  rcases hd : readDSDChunk (writeDSDChunkBytes a ++ fmtB) emptyAudio with e | p
  · exact ⟨e, rfl⟩
  · obtain ⟨a1, s1⟩ := p
    have hlen28 : (writeDSDChunkBytes a).length = 28 := mkDsdChunk_length _ _ _
    have hs1 : s1 = fmtB := by
      rw [readDSDChunk_ok_rest hd, drop_app_exact hlen28]
    obtain ⟨e2, he2⟩ := readFmtChunk_on_written_errors a fmtB hw a1
    refine ⟨e2, ?_⟩
    dsimp only
    rw [hs1, he2]

/-- C1: whenever Encode succeeds on a DSD Audio value, the bytes written
are exactly the 28-byte DSD chunk followed by the 52-byte fmt chunk — 80
bytes in all, with no data chunk and no metadata chunk — and decoding that
output always fails, so decode(encode(a)) cannot reproduce a
byte-for-byte. -/
theorem c1_encoder_writes_only_dsd_and_fmt (a : Audio) (out : List Nat)
    (hdsd : a.encoding = .dsd) (h : Encode a = (out, none)) :
    (∃ fmtB, writeFmtChunkBytes a = .ok fmtB ∧ out = writeDSDChunkBytes a ++ fmtB ∧
      fmtB.length = 52) ∧
    (writeDSDChunkBytes a).length = 28 ∧
    out.length = 80 ∧
    (∃ e, decode out = .error e) := by
  rw [Encode, if_neg (not_not_intro hdsd), encode] at h
  dsimp only at h
  split_ifs at h with hbs hrem
  · injection h with h1 h2
    exact Option.noConfusion h2
  · have hmk : goMakeSlice (a.encodedSamples.length % a.blockSize) 0 = none := by
      rw [goMakeSlice, if_pos hrem]
    rw [hmk] at h
    injection h with h1 h2
    exact Option.noConfusion h2
  · rw [encodeChunks] at h
    rcases hw : writeFmtChunkBytes a with e | fmtB <;> rw [hw] at h <;> dsimp only at h
    · injection h with h1 h2
      exact Option.noConfusion h2
    · injection h with h1 h2
      subst h1
      have hlen28 : (writeDSDChunkBytes a).length = 28 := mkDsdChunk_length _ _ _
      have hlen52 : fmtB.length = 52 := by
        have hw2 := hw
        rw [writeFmtChunkBytes] at hw2
        dsimp only at hw2
        split_ifs at hw2
        injection hw2 with hfb
        rw [← hfb]
        exact mkFmtChunk_length _ _ _ _ _ _ _ _ _ _
      refine ⟨⟨fmtB, rfl, rfl, hlen52⟩, hlen28, ?_, decode_of_written_errors a fmtB hw⟩
      rw [List.length_append, hlen28, hlen52]

/-- Witness for c1_encoder_writes_only_dsd_and_fmt at a valid stereo DSD
Audio value. -/
theorem c1_encoder_writes_only_dsd_and_fmt_witness :
    (∃ fmtB, writeFmtChunkBytes c1audio = .ok fmtB ∧
      c1out = writeDSDChunkBytes c1audio ++ fmtB ∧ fmtB.length = 52) ∧
    (writeDSDChunkBytes c1audio).length = 28 ∧
    c1out.length = 80 ∧
    (∃ e, decode c1out = .error e) :=
  c1_encoder_writes_only_dsd_and_fmt c1audio c1out rfl (by decide)
